import Mathlib

/-!
Verification development for the trivsel survey backend.

This file shallowly embeds the survey-session lifecycle, scoring and
alerting pipeline of the backend (`app/services/scoring.py`,
`app/services/alerts.py`, `app/api/routes/survey.py`,
`app/api/routes/students.py`, `app/crud.py`, `app/models.py`) and proves
properties of the embedded definitions.

Modelling conventions:
- UUIDs are modelled as `Nat`, timestamps as `Int` (an abstract clock),
  float score arithmetic as exact rational arithmetic over `ℚ`.
- The relational store is a `DB` structure of lists; `crud` insertions are
  modelled by appending (or, for `Score` rows, prepending: the list is held
  most-recent-first, mirroring the `ORDER BY calculated_at DESC` reads).
- Services that create notification rows via `crud.create_notification`
  are modelled as pure functions returning the list of created rows, which
  the calling operation appends to the store; the net state change is the
  same as in the source.
- String titles/messages of notifications are not modelled; a notification
  row keeps its addressee, student reference and type.
-/

set_option autoImplicit false

namespace Trivsel

/-! ### Enumerations (models.py) -/

/-- models.py `StudentPhase`. -/
inductive StudentPhase where
  | indslusning
  | hovedforloeb
  | udslusning
  deriving DecidableEq

/-- models.py `QuestionPhase` (which student phases a question applies to). -/
inductive QuestionPhase where
  | all
  | indslusning
  | hovedforloeb
  | udslusning
  deriving DecidableEq

/-- models.py `SessionStatus`. -/
inductive SessionStatus where
  | pending
  | in_progress
  | completed
  | expired
  | non_response
  deriving DecidableEq

/-- models.py `ScoreColor`. -/
inductive ScoreColor where
  | green
  | yellow
  | red
  deriving DecidableEq

/-- models.py `SurveyCategory` (the five wellbeing dimensions). -/
inductive SurveyCategory where
  | trivsel
  | motivation
  | faellesskab
  | selvindsigt
  | arbejdsparathed
  deriving DecidableEq

/-- models.py `NotificationType`. -/
inductive NotificationType where
  | critical_score
  | score_drop
  | non_response
  | weekly_summary
  deriving DecidableEq

/-! ### Records (models.py table models, with the fields the core logic reads) -/

/-- models.py `Student` (fields used by the survey routes and alerting). -/
structure Student where
  id : Nat
  phase : StudentPhase
  consent_status : Bool
  deriving DecidableEq

/-- models.py `SurveyQuestion`. -/
structure SurveyQuestion where
  id : Nat
  category : SurveyCategory
  phase : QuestionPhase
  order : Int
  is_active : Bool
  deriving DecidableEq

/-- models.py `SurveySession`. -/
structure SurveySession where
  id : Nat
  student_id : Nat
  token : Nat
  token_expires_at : Int
  status : SessionStatus
  completed_at : Option Int
  week_number : Int
  year : Int
  reminder_count : Nat
  deriving DecidableEq

/-- models.py `SurveyResponse` (table row). -/
structure SurveyResponse where
  session_id : Nat
  question_id : Option Nat
  custom_question_index : Option Nat
  answer : Int
  deriving DecidableEq

/-- models.py `SurveyResponseCreate` (one fixed-question answer in a request). -/
structure SurveyResponseCreate where
  question_id : Nat
  answer : Int
  deriving DecidableEq

/-- models.py `CustomResponseCreate` (one custom-question answer in a request). -/
structure CustomResponseCreate where
  custom_question_index : Nat
  answer : Int
  deriving DecidableEq

/-- models.py `SurveyResponseBulkCreate` (the submission request body). -/
structure SurveyResponseBulkCreate where
  responses : List SurveyResponseCreate
  custom_responses : Option (List CustomResponseCreate)
  deriving DecidableEq

/-- models.py `Score` (table row). -/
structure Score where
  student_id : Nat
  session_id : Nat
  category : Option SurveyCategory
  score_value : ℚ
  color : ScoreColor
  is_total : Bool
  deriving DecidableEq

/-- models.py `StudentAssignment` (staff-to-student link). -/
structure StudentAssignment where
  student_id : Nat
  user_id : Nat
  deriving DecidableEq

/-- models.py `Notification` (table row; title and message strings omitted). -/
structure Notification where
  student_id : Option Nat
  user_id : Nat
  type : NotificationType
  deriving DecidableEq

/-- The relational store: one list per table read or written by the embedded
operations.  `scores` is kept most-recent-first (insertions prepend),
matching the `ORDER BY calculated_at DESC` reads in `crud.get_student_scores`. -/
structure DB where
  students : List Student
  questions : List SurveyQuestion
  sessions : List SurveySession
  responses : List SurveyResponse
  scores : List Score
  assignments : List StudentAssignment
  notifications : List Notification
  deriving DecidableEq

/-- Modelled from the spec: the scoring configuration module
(`app/core/config.py`) is not under `src/`; §6 of the spec describes the
externally supplied thresholds `{green_min, yellow_min}`. -/
structure Settings where
  SCORE_GREEN_MIN : ℚ
  SCORE_YELLOW_MIN : ℚ
  deriving DecidableEq

/-- Modelled from the spec: default thresholds green ≥ 4.0, yellow ≥ 3.0
(spec §4.1 and §6). -/
def defaultSettings : Settings := { SCORE_GREEN_MIN := 4, SCORE_YELLOW_MIN := 3 }

/-! ### crud.py lookups -/

/-- crud.py `get_question`: primary-key lookup. -/
def get_question (db : DB) (question_id : Nat) : Option SurveyQuestion :=
  db.questions.find? (fun q => q.id == question_id)

/-- crud.py `get_student`: primary-key lookup. -/
def get_student (db : DB) (student_id : Nat) : Option Student :=
  db.students.find? (fun s => s.id == student_id)

/-- The phase filter of crud.py `get_questions_for_student`:
`phase == ALL or phase == student_phase.value`. -/
def question_phase_matches (qp : QuestionPhase) (sp : StudentPhase) : Bool :=
  match qp, sp with
  | .all, _ => true
  | .indslusning, .indslusning => true
  | .hovedforloeb, .hovedforloeb => true
  | .udslusning, .udslusning => true
  | _, _ => false

/-- Stable insertion by `order`, modelling the `ORDER BY SurveyQuestion.order`. -/
def insertByOrder (q : SurveyQuestion) : List SurveyQuestion → List SurveyQuestion
  | [] => [q]
  | x :: xs => if q.order < x.order then q :: x :: xs else x :: insertByOrder q xs

/-- Sort a question list by `order` (stable insertion sort). -/
def sortByOrder : List SurveyQuestion → List SurveyQuestion
  | [] => []
  | x :: xs => insertByOrder x (sortByOrder xs)

/-- crud.py `get_questions_for_student`: active questions whose phase is
`ALL` or the student's phase, ordered by `order`. -/
def get_questions_for_student (db : DB) (student_phase : StudentPhase) :
    List SurveyQuestion :=
  sortByOrder (db.questions.filter
    (fun q => q.is_active && question_phase_matches q.phase student_phase))

/-- crud.py `get_survey_session_by_token`: unique-token lookup. -/
def get_survey_session_by_token (db : DB) (token : Nat) : Option SurveySession :=
  db.sessions.find? (fun s => s.token == token)

/-- crud.py `get_expired_sessions`: sessions in {pending, in_progress} whose
`token_expires_at` is `<=` the current time. -/
def get_expired_sessions (now : Int) (db : DB) : List SurveySession :=
  db.sessions.filter (fun s =>
    (s.status == SessionStatus.pending || s.status == SessionStatus.in_progress)
      && decide (s.token_expires_at ≤ now))

/-- crud.py `update_session_status`: set the status (by session id); stamp
`completed_at` exactly when the new status is `completed`. -/
def update_session_status (db : DB) (session_id : Nat) (status : SessionStatus)
    (now : Int) : DB :=
  { db with sessions := db.sessions.map (fun s =>
      if s.id == session_id then
        { s with status := status,
                 completed_at := if status == SessionStatus.completed
                                 then some now else s.completed_at }
      else s) }

/-- crud.py `get_student_scores`: the student's scores, most recent first,
up to `limit`. -/
def get_student_scores (db : DB) (student_id : Nat) (limit : Nat) : List Score :=
  (db.scores.filter (fun s => s.student_id == student_id)).take limit

/-- crud.py `get_student_assignments`. -/
def get_student_assignments (db : DB) (student_id : Nat) : List StudentAssignment :=
  db.assignments.filter (fun a => a.student_id == student_id)

/-- crud.py `create_responses_bulk`: the rows inserted for a bulk submission
(`question_id` set, `custom_question_index` left at its `None` default). -/
def create_responses_bulk (session_id : Nat) (responses : List SurveyResponseCreate) :
    List SurveyResponse :=
  responses.map (fun r =>
    { session_id := session_id,
      question_id := some r.question_id,
      custom_question_index := none,
      answer := r.answer })

/-! ### services/scoring.py -/

/-- scoring.py `determine_color`: traffic-light classification of a score
value against the configured thresholds. -/
def determine_color (settings : Settings) (score : ℚ) : ScoreColor :=
  if score ≥ settings.SCORE_GREEN_MIN then ScoreColor.green
  else if score ≥ settings.SCORE_YELLOW_MIN then ScoreColor.yellow
  else ScoreColor.red

/-- scoring.py `calculate_total_score`: the mean of the category scores,
`0.0` when there are none. -/
def calculate_total_score (scores : List ℚ) : ℚ :=
  if scores = [] then 0 else scores.sum / (scores.length : ℚ)

/-- The category a response is scored under: the category of its question,
when `get_question` resolves it (responses whose question is missing are
skipped by the `if question:` guard in scoring.py). -/
def response_category (db : DB) (r : SurveyResponse) : Option SurveyCategory :=
  (r.question_id.bind (get_question db)).map SurveyQuestion.category

/-- The answers grouped under one category (in response order), as in the
`defaultdict` grouping of scoring.py `calculate_all_scores`. -/
def category_answers (db : DB) (responses : List SurveyResponse)
    (category : SurveyCategory) : List Int :=
  (responses.filter (fun r => response_category db r == some category)).map
    SurveyResponse.answer

/-- First-occurrence deduplication, keeping the order in which keys enter the
`defaultdict` of scoring.py `calculate_all_scores`. -/
def firstOccurrencesAux (seen : List SurveyCategory) :
    List SurveyCategory → List SurveyCategory
  | [] => []
  | c :: cs =>
    if c ∈ seen then firstOccurrencesAux seen cs
    else c :: firstOccurrencesAux (c :: seen) cs

/-- The categories present among the responses, in first-occurrence order. -/
def presentCategories (db : DB) (responses : List SurveyResponse) :
    List SurveyCategory :=
  firstOccurrencesAux [] (responses.filterMap (response_category db))

/-- scoring.py `calculate_all_scores`: the per-category means (keys in
insertion order) and the total score (mean of the category means). -/
def calculate_all_scores (db : DB) (responses : List SurveyResponse) :
    List (SurveyCategory × ℚ) × ℚ :=
  let category_scores := (presentCategories db responses).map (fun c =>
    let answers := category_answers db responses c
    (c, (answers.map (fun a => (a : ℚ))).sum / (answers.length : ℚ)))
  let total_score := calculate_total_score (category_scores.map Prod.snd)
  (category_scores, total_score)

/-- scoring.py `detect_score_drop` (the source's default `threshold` is 1.0;
callers in this file pass it explicitly). -/
def detect_score_drop (current_score : ℚ) (previous_score : Option ℚ)
    (threshold : ℚ) : Bool :=
  match previous_score with
  | none => false
  | some p => decide (p - current_score ≥ threshold)

/-- Round a rational to the nearest integer, ties to even: the rounding of
Python's built-in `round`. -/
def roundHalfToEven (x : ℚ) : Int :=
  let f := Int.floor x
  if x - f < 1/2 then f
  else if 1/2 < x - f then f + 1
  else if Even f then f else f + 1

/-- Python `round(x, 2)`: round to 2 decimal places, ties to even. -/
def pythonRound2 (x : ℚ) : ℚ :=
  (roundHalfToEven (x * 100) : ℚ) / 100

/-- scoring.py `save_scores_for_session`: one `Score` row per present
category plus one total row.  Each row stores the value rounded to 2
decimals, and the color computed by `determine_color` on the unrounded
value (the source calls `determine_color(score_value)` and separately
passes `round(score_value, 2)` to `crud.create_score`). -/
def save_scores_for_session (settings : Settings) (db : DB)
    (survey_session : SurveySession) (responses : List SurveyResponse) :
    List Score :=
  let p := calculate_all_scores db responses
  let created := p.1.map (fun cs =>
    { student_id := survey_session.student_id,
      session_id := survey_session.id,
      category := some cs.1,
      score_value := pythonRound2 cs.2,
      color := determine_color settings cs.2,
      is_total := false })
  created ++ [{ student_id := survey_session.student_id,
                session_id := survey_session.id,
                category := none,
                score_value := pythonRound2 p.2,
                color := determine_color settings p.2,
                is_total := true }]

/-- scoring.py `get_previous_total_score`: the most recent total score among
the student's last 10 score rows, excluding the given session. -/
def get_previous_total_score (db : DB) (student_id : Nat)
    (exclude_session_id : Option Nat) : Option ℚ :=
  let scores := get_student_scores db student_id 10
  (scores.find? (fun s =>
      s.is_total && decide (some s.session_id ≠ exclude_session_id))).map
    Score.score_value

/-! ### services/alerts.py -/

/-- alerts.py `check_for_alerts`: after a completed submission, the
notification rows created (critical-score fan-out first, then score-drop
fan-out; each check fans out one row per assignment of the student; an
empty assignment set short-circuits to no rows).  Row creation via
`crud.create_notification` is modelled by the caller appending the
returned list. -/
def check_for_alerts (db : DB) (survey_session : SurveySession)
    (scores : List Score) (student : Student) : List Notification :=
  let assignments := get_student_assignments db student.id
  if assignments = [] then []
  else
    let red_scores := scores.filter (fun s => s.color == ScoreColor.red)
    let critical_notifs :=
      if red_scores = [] then []
      else assignments.map (fun a =>
        { student_id := some student.id,
          user_id := a.user_id,
          type := NotificationType.critical_score })
    let drop_notifs :=
      match scores.find? Score.is_total with
      | none => []
      | some total =>
        let previous := get_previous_total_score db student.id
          (some survey_session.id)
        if detect_score_drop total.score_value previous 1 then
          assignments.map (fun a =>
            { student_id := some student.id,
              user_id := a.user_id,
              type := NotificationType.score_drop })
        else []
    critical_notifs ++ drop_notifs

/-- alerts.py `process_non_response`: the non-response notification rows for
one expired session, one per assignment of the student (none when the
student has no assignments). -/
def process_non_response (db : DB) (student : Student) : List Notification :=
  let assignments := get_student_assignments db student.id
  if assignments = [] then []
  else assignments.map (fun a =>
    { student_id := some student.id,
      user_id := a.user_id,
      type := NotificationType.non_response })

/-- The body of the loop in alerts.py `process_expired_sessions`: for each
selected session, set its status to `non_response`, then (when the student
exists) create the non-response notifications. -/
def processExpiredLoop (now : Int) :
    List SurveySession → Nat → DB → Nat × DB
  | [], n, db => (n, db)
  | sess :: rest, n, db =>
    let db1 := update_session_status db sess.id SessionStatus.non_response now
    let db2 :=
      match get_student db1 sess.student_id with
      | some student =>
        { db1 with notifications :=
            db1.notifications ++ process_non_response db1 student }
      | none => db1
    processExpiredLoop now rest (n + 1) db2

/-- alerts.py `process_expired_sessions`: the expiry sweep.  Selects the
sessions of `crud.get_expired_sessions` once, then processes each in turn;
returns the processed count and the updated store. -/
def process_expired_sessions (now : Int) (db : DB) : Nat × DB :=
  processExpiredLoop now (get_expired_sessions now db) 0 db

/-! ### api/routes/survey.py -/

/-- Outcome of `GET /survey/{token}` (survey.py `get_survey`); HTTP error
codes are modelled as distinct constructors. -/
inductive GetSurveyOutcome where
  | surveyNotFound
  | gone
  | alreadyCompleted
  | studentNotFound
  | noConsent
  | ok (questions : List SurveyQuestion)
  deriving DecidableEq

/-- survey.py `get_survey`: token lookup, lazy expiry marking, completed
check, consent check, and the pending → in_progress transition. -/
def get_survey (now : Int) (token : Nat) (db : DB) : GetSurveyOutcome × DB :=
  match get_survey_session_by_token db token with
  | none => (.surveyNotFound, db)
  | some survey_session =>
    if survey_session.token_expires_at < now then
      let db1 :=
        if survey_session.status ≠ SessionStatus.expired
            ∧ survey_session.status ≠ SessionStatus.non_response then
          update_session_status db survey_session.id SessionStatus.expired now
        else db
      (.gone, db1)
    else if survey_session.status = SessionStatus.completed then
      (.alreadyCompleted, db)
    else
      match get_student db survey_session.student_id with
      | none => (.studentNotFound, db)
      | some student =>
        if student.consent_status = false then (.noConsent, db)
        else
          let questions := get_questions_for_student db student.phase
          let db1 :=
            if survey_session.status = SessionStatus.pending then
              update_session_status db survey_session.id
                SessionStatus.in_progress now
            else db
          (.ok questions, db1)

/-- Outcome of `POST /survey/{token}/responses` (survey.py
`submit_responses`). -/
inductive SubmitOutcome where
  | surveyNotFound
  | gone
  | alreadyCompleted
  | studentNotFound
  | missingResponses (count : Nat)
  | invalidQuestionIds
  | success (total_score : ℚ) (color : ScoreColor)
  deriving DecidableEq

/-- Whether a submission outcome is the success response. -/
def SubmitOutcome.isSuccess : SubmitOutcome → Bool
  | .success _ _ => true
  | _ => false

/-- survey.py `submit_responses`: token lookup, expiry and completed checks,
set-based validation of the submitted question ids against the expected
question set, bulk insertion of the responses, score computation and
persistence, the transition to `completed`, and alert fan-out. -/
def submit_responses (settings : Settings) (now : Int) (token : Nat)
    (bulk : SurveyResponseBulkCreate) (db : DB) : SubmitOutcome × DB :=
  match get_survey_session_by_token db token with
  | none => (.surveyNotFound, db)
  | some survey_session =>
    if survey_session.token_expires_at < now then (.gone, db)
    else if survey_session.status = SessionStatus.completed then
      (.alreadyCompleted, db)
    else
      match get_student db survey_session.student_id with
      | none => (.studentNotFound, db)
      | some student =>
        let expected_questions := get_questions_for_student db student.phase
        let expected_question_ids := expected_questions.map SurveyQuestion.id
        let submitted_question_ids :=
          bulk.responses.map SurveyResponseCreate.question_id
        let missing_questions := expected_question_ids.filter
          (fun q => decide (q ∉ submitted_question_ids))
        if missing_questions ≠ [] then
          (.missingResponses missing_questions.length, db)
        else
          let extra_questions := submitted_question_ids.filter
            (fun q => decide (q ∉ expected_question_ids))
          if extra_questions ≠ [] then (.invalidQuestionIds, db)
          else
            let db_responses :=
              create_responses_bulk survey_session.id bulk.responses
            let db1 := { db with responses := db.responses ++ db_responses }
            let scores :=
              save_scores_for_session settings db1 survey_session db_responses
            let db2 := { db1 with scores := scores ++ db1.scores }
            let db3 := update_session_status db2 survey_session.id
              SessionStatus.completed now
            let notifs := check_for_alerts db3 survey_session scores student
            let db4 := { db3 with notifications := db3.notifications ++ notifs }
            match scores.find? Score.is_total with
            | some total => (.success total.score_value total.color, db4)
            | none => (.success 0 ScoreColor.green, db4)

/-! ### api/routes/students.py `send_survey` -/

/-- The keyword-argument names involved in the `crud.create_survey_session`
call of students.py `send_survey`. -/
inductive KwArg where
  | session
  | student_id
  | week_number
  | year
  | token_expiry_days
  | custom_questions
  deriving DecidableEq

/-- The keyword-only parameters of crud.py `create_survey_session`
(`session`, `student_id`, `week_number`, `year`, `token_expiry_days`). -/
def create_survey_session_params : List KwArg :=
  [.session, .student_id, .week_number, .year, .token_expiry_days]

/-- The keyword arguments students.py `send_survey` passes to
`crud.create_survey_session` (it passes `custom_questions=...`). -/
def send_survey_call_kwargs : List KwArg :=
  [.session, .student_id, .week_number, .year, .custom_questions]

/-- Python keyword-call acceptance: a call binds iff every keyword argument
names a parameter of the callee (all required parameters are supplied
here, so unexpected keywords are the only failure mode); otherwise the
call raises `TypeError`. -/
def kwargs_accepted (params kwargs : List KwArg) : Bool :=
  kwargs.all (fun k => params.contains k)

/-- Outcome of `POST /students/{student_id}/send-survey`. -/
inductive SendSurveyOutcome where
  | forbidden
  | studentNotFound
  | noConsent
  | inactiveStudent
  | tooManyCustomQuestions
  | typeError
  | sessionCreated
  deriving DecidableEq

/-- students.py `send_survey`: the guard chain (role, existence, consent,
activity, custom-question count) followed by the `create_survey_session`
call, which binds only if its keyword arguments are accepted.  The
stripping/filtering of custom-question texts only changes the value passed
under the `custom_questions` keyword, never the keyword set, so it is not
modelled. -/
def send_survey (is_admin student_found consent_status is_active : Bool)
    (custom_questions : Option (List String)) : SendSurveyOutcome :=
  if is_admin = false then .forbidden
  else if student_found = false then .studentNotFound
  else if consent_status = false then .noConsent
  else if is_active = false then .inactiveStudent
  else if (match custom_questions with
           | some qs => decide (2 < qs.length)
           | none => false) then .tooManyCustomQuestions
  else if kwargs_accepted create_survey_session_params send_survey_call_kwargs then
    .sessionCreated
  else .typeError

/-! ### C8: the drop detector -/

/-- C8: `detect_score_drop(current, previous, threshold)` returns true iff
`previous` is some `p` with `p - current ≥ threshold`; in particular it is
false whenever `previous` is `None`, a drop of exactly the threshold
(default 1.0) triggers, and a drop of 0.9 does not. -/
theorem detect_score_drop_spec (current threshold : ℚ) (previous : Option ℚ) :
    (detect_score_drop current previous threshold = true ↔
       ∃ p, previous = some p ∧ p - current ≥ threshold)
    ∧ detect_score_drop current none threshold = false
    ∧ detect_score_drop 3 (some 4) 1 = true
    ∧ detect_score_drop (31/10) (some 4) 1 = false := by
  refine ⟨?_, rfl, by with_unfolding_all decide, by with_unfolding_all decide⟩
  cases previous with
  | none => simp [detect_score_drop]
  | some p =>
    simp only [detect_score_drop, decide_eq_true_eq, Option.some.injEq]
    constructor
    · intro h
      exact ⟨p, rfl, h⟩
    · rintro ⟨q, rfl, h⟩
      exact h

/-- Witness for `detect_score_drop_spec` at concrete inputs. -/
theorem detect_score_drop_spec_witness :
    detect_score_drop 3 (some 4) 1 = true :=
  (detect_score_drop_spec 3 1 (some 4)).2.2.1

/-! ### C9: the single-student send-survey route -/

/-- C9: `send_survey` never returns the session-created outcome: every
request that passes the guards reaches the `create_survey_session` call
with a `custom_questions` keyword its signature does not accept, so the
call raises `TypeError` and no survey session is created through this
route. -/
theorem send_survey_never_creates_session
    (is_admin student_found consent_status is_active : Bool)
    (custom_questions : Option (List String)) :
    send_survey is_admin student_found consent_status is_active custom_questions
        ≠ SendSurveyOutcome.sessionCreated
    ∧ (is_admin = true → student_found = true → consent_status = true →
        is_active = true →
        (match custom_questions with
         | some qs => decide (2 < qs.length)
         | none => false) = false →
        send_survey is_admin student_found consent_status is_active
            custom_questions = SendSurveyOutcome.typeError) := by
  constructor
  · unfold send_survey
    repeat' split
    all_goals try decide
    all_goals (rename_i h; exact absurd h (by decide))
  · intro ha hsf hc hact hq
    unfold send_survey
    subst ha; subst hsf; subst hc; subst hact
    rw [hq]
    decide

/-- Witness for `send_survey_never_creates_session`: a fully authorized
request without custom questions still ends in `TypeError`. -/
theorem send_survey_never_creates_session_witness :
    send_survey true true true true none = SendSurveyOutcome.typeError :=
  (send_survey_never_creates_session true true true true none).2 rfl rfl rfl rfl
    (by decide)

/-! ### C1: a completed session fetched after token expiry -/

/-- A completed session whose token has passed its expiry. -/
def c1Session : SurveySession :=
  { id := 0, student_id := 0, token := 1, token_expires_at := 5,
    status := SessionStatus.completed, completed_at := some 3,
    week_number := 1, year := 2025, reminder_count := 0 }

/-- A store holding `c1Session` and its student. -/
def c1DB : DB :=
  { students := [{ id := 0, phase := StudentPhase.hovedforloeb,
                   consent_status := true }],
    questions := [], sessions := [c1Session], responses := [], scores := [],
    assignments := [], notifications := [] }

/-- C1: evaluating `get_survey` at time 10 on a completed session whose
token expired at time 5 moves the session out of the completed status: the
expiry branch of `get_survey` checks only for `expired`/`non_response`
before marking, so the completed session is re-marked `expired`. -/
theorem completed_session_marked_expired_on_get :
    c1Session.status = SessionStatus.completed
    ∧ (get_survey 10 1 c1DB).1 = GetSurveyOutcome.gone
    ∧ (get_survey 10 1 c1DB).2.sessions.map SurveySession.status
        = [SessionStatus.expired] := by
  decide

/-! ### C2 counterexample: duplicate responses pass the set-based validation -/

/-- The single active question expected for every phase in `c2DB`. -/
def c2Question : SurveyQuestion :=
  { id := 7, category := SurveyCategory.trivsel, phase := QuestionPhase.all,
    order := 0, is_active := true }

/-- A pending, unexpired session for student 0. -/
def c2Session : SurveySession :=
  { id := 0, student_id := 0, token := 1, token_expires_at := 100,
    status := SessionStatus.pending, completed_at := none,
    week_number := 1, year := 2025, reminder_count := 0 }

/-- A store with one student, one expected question and one open session. -/
def c2DB : DB :=
  { students := [{ id := 0, phase := StudentPhase.hovedforloeb,
                   consent_status := true }],
    questions := [c2Question], sessions := [c2Session], responses := [],
    scores := [], assignments := [], notifications := [] }

/-- A submission answering the single expected question twice. -/
def c2Bulk : SurveyResponseBulkCreate :=
  { responses := [{ question_id := 7, answer := 5 },
                  { question_id := 7, answer := 1 }],
    custom_responses := none }

/-- C2 counterexample: a submission containing two responses for the same
expected question is accepted (the set-based validation sees no missing and
no extra question ids) and both rows are persisted, so an accepted
submission does not persist exactly one response per expected question. -/
theorem duplicate_responses_accepted :
    (submit_responses defaultSettings 10 1 c2Bulk c2DB).1
        = SubmitOutcome.success 3 ScoreColor.yellow
    ∧ ((submit_responses defaultSettings 10 1 c2Bulk c2DB).2.responses.filter
          (fun r => r.question_id == some 7)).length = 2 := by
  with_unfolding_all decide

/-! ### C4 counterexample: color computed before rounding -/

/-- The single question of the C4 counterexample store. -/
def c4Question : SurveyQuestion :=
  { id := 1, category := SurveyCategory.trivsel, phase := QuestionPhase.all,
    order := 0, is_active := true }

/-- A store holding only `c4Question`. -/
def c4DB : DB :=
  { students := [], questions := [c4Question], sessions := [], responses := [],
    scores := [], assignments := [], notifications := [] }

/-- An open session for the C4 counterexample. -/
def c4Session : SurveySession :=
  { id := 0, student_id := 0, token := 1, token_expires_at := 100,
    status := SessionStatus.in_progress, completed_at := none,
    week_number := 1, year := 2025, reminder_count := 0 }

/-- 250 answers to question 1 with mean 999/250 = 3.996. -/
def c4Responses : List SurveyResponse :=
  List.replicate 249
    { session_id := 0, question_id := some 1, custom_question_index := none,
      answer := 4 }
  ++ [{ session_id := 0, question_id := some 1, custom_question_index := none,
        answer := 3 }]

set_option maxRecDepth 8000 in
/-- C4 counterexample: for a category mean of 3.996 the persisted value is
rounded to 4.0 but the persisted color is computed from the unrounded mean,
so each persisted `Score` row stores value 4.0 with color yellow while the
threshold classification of the stored value is green: the claimed relation
between the stored color and the rounded stored value fails. -/
theorem color_vs_rounded_value_mismatch :
    ((save_scores_for_session defaultSettings c4DB c4Session c4Responses).map
        (fun s => (s.score_value, s.color, determine_color defaultSettings s.score_value)))
      = [(4, ScoreColor.yellow, ScoreColor.green),
         (4, ScoreColor.yellow, ScoreColor.green)]
    ∧ ¬ (∀ s ∈ save_scores_for_session defaultSettings c4DB c4Session c4Responses,
          s.color = determine_color defaultSettings s.score_value) := by
  with_unfolding_all decide

/-! ### C5 counterexample: the sweep skips sessions already marked expired -/

/-- A session already lazily marked `expired`, past its token expiry. -/
def c5Session : SurveySession :=
  { id := 0, student_id := 0, token := 2, token_expires_at := 5,
    status := SessionStatus.expired, completed_at := none,
    week_number := 1, year := 2025, reminder_count := 0 }

/-- A store with the expired-marked session, its student and one assigned
staff member. -/
def c5DB : DB :=
  { students := [{ id := 0, phase := StudentPhase.hovedforloeb,
                   consent_status := true }],
    questions := [], sessions := [c5Session], responses := [], scores := [],
    assignments := [{ student_id := 0, user_id := 9 }], notifications := [] }

/-- C5 counterexample: running the expiry sweep at time 10 over a store whose
only session sits in status `expired` (with an assigned staff member)
processes nothing: the session keeps status `expired` instead of
transitioning to `non_response`, and no notification is created. -/
theorem sweep_skips_expired_status :
    c5Session.status = SessionStatus.expired
    ∧ c5Session.token_expires_at ≤ 10
    ∧ process_expired_sessions 10 c5DB = (0, c5DB) := by
  decide

/-! ### C3: category means and the total as a mean of means -/

/-- Membership in the first-occurrence deduplication: an element occurs iff
it occurs in the input and is not among the already-seen keys. -/
lemma mem_firstOccurrencesAux (a : SurveyCategory) (l : List SurveyCategory) :
    ∀ seen, a ∈ firstOccurrencesAux seen l ↔ a ∈ l ∧ a ∉ seen := by
  induction l with
  | nil => intro seen; simp [firstOccurrencesAux]
  | cons c cs ih =>
    intro seen
    by_cases h : c ∈ seen
    · rw [firstOccurrencesAux, if_pos h, ih]
      constructor
      · rintro ⟨h1, h2⟩
        exact ⟨List.mem_cons_of_mem _ h1, h2⟩
      · rintro ⟨h1, h2⟩
        rcases List.mem_cons.1 h1 with rfl | h1
        · exact absurd h h2
        · exact ⟨h1, h2⟩
    · rw [firstOccurrencesAux, if_neg h]
      by_cases hac : a = c
      · subst hac
        simp [h]
      · rw [List.mem_cons, ih, List.mem_cons, List.mem_cons]
        simp [hac]

/-- A category is present among the responses iff some response resolves to
a question of that category. -/
lemma mem_presentCategories (db : DB) (responses : List SurveyResponse)
    (c : SurveyCategory) :
    c ∈ presentCategories db responses ↔
      ∃ r ∈ responses, response_category db r = some c := by
  rw [presentCategories, mem_firstOccurrencesAux]
  simp [List.mem_filterMap]

/-- A present category has a nonempty answer list. -/
lemma category_answers_ne_nil (db : DB) (responses : List SurveyResponse)
    (c : SurveyCategory) (h : c ∈ presentCategories db responses) :
    category_answers db responses c ≠ [] := by
  rw [mem_presentCategories] at h
  rcases h with ⟨r, hr, hc⟩
  intro hnil
  rw [category_answers, List.map_eq_nil_iff, List.filter_eq_nil_iff] at hnil
  exact hnil r hr (by simp [hc])

/-- C3: in `calculate_all_scores`, every emitted category score is the
arithmetic mean of that category's answers; every category with at least
one answered fixed question is emitted; the total score is the arithmetic
mean of the emitted category scores (mean of means, with absent categories
excluded from output and denominator alike); and when no response resolves
to a fixed question the total is 0.0, classified red under the default
thresholds. -/
theorem scores_mean_of_means (db : DB) (responses : List SurveyResponse) :
    (∀ p ∈ (calculate_all_scores db responses).1,
       category_answers db responses p.1 ≠ [] ∧
       p.2 = ((category_answers db responses p.1).map (fun a => (a : ℚ))).sum
               / ((category_answers db responses p.1).length : ℚ))
    ∧ (∀ c : SurveyCategory, category_answers db responses c ≠ [] →
         c ∈ (calculate_all_scores db responses).1.map Prod.fst)
    ∧ ((calculate_all_scores db responses).2 =
        if (calculate_all_scores db responses).1 = [] then 0
        else ((calculate_all_scores db responses).1.map Prod.snd).sum
               / (((calculate_all_scores db responses).1.length : ℚ)))
    ∧ (responses.filterMap (response_category db) = [] →
        (calculate_all_scores db responses).2 = 0
        ∧ determine_color defaultSettings (calculate_all_scores db responses).2
            = ScoreColor.red) := by
  refine ⟨?_, ?_, ?_, ?_⟩
  · intro p hp
    rcases List.mem_map.1 hp with ⟨c, hc, rfl⟩
    exact ⟨category_answers_ne_nil db responses c hc, rfl⟩
  · intro c hc
    have hpres : c ∈ presentCategories db responses := by
      rw [mem_presentCategories]
      rcases List.exists_mem_of_ne_nil _ hc with ⟨a, ha⟩
      rw [category_answers] at ha
      rcases List.mem_map.1 ha with ⟨r, hr, _⟩
      have hr2 := List.mem_filter.1 hr
      refine ⟨r, hr2.1, ?_⟩
      have := hr2.2
      simpa using this
    rw [calculate_all_scores]
    simp only [List.map_map]
    simpa using hpres
  · have htot : ∀ cs : List (SurveyCategory × ℚ),
        calculate_total_score (cs.map Prod.snd)
          = if cs = [] then 0 else (cs.map Prod.snd).sum / (cs.length : ℚ) := by
      intro cs
      unfold calculate_total_score
      by_cases h : cs = []
      · subst h; simp
      · rw [if_neg (fun hh => h (List.map_eq_nil_iff.1 hh)), if_neg h,
            List.length_map]
    exact htot ((calculate_all_scores db responses).1)
  · intro h
    have hpres : presentCategories db responses = [] := by
      unfold presentCategories
      rw [h]
      rfl
    have h1 : (calculate_all_scores db responses).1 = [] := by
      show (presentCategories db responses).map _ = []
      rw [hpres]
      rfl
    have h2 : (calculate_all_scores db responses).2 = 0 := by
      show calculate_total_score ((calculate_all_scores db responses).1.map Prod.snd) = 0
      rw [h1]
      rfl
    refine ⟨h2, ?_⟩
    rw [h2]
    with_unfolding_all decide

/-- A store for the C3 witness: one question, one answering response. -/
def c3wDB : DB :=
  { students := [], questions := [c2Question], sessions := [], responses := [],
    scores := [], assignments := [], notifications := [] }

/-- A single response answering question 7 with 5. -/
def c3wResponses : List SurveyResponse :=
  [{ session_id := 0, question_id := some 7, custom_question_index := none,
     answer := 5 }]

/-- Witness for `scores_mean_of_means`: the trivsel category score of a
single answer 5 is the mean of its answer list. -/
theorem scores_mean_of_means_witness :
    category_answers c3wDB c3wResponses SurveyCategory.trivsel ≠ []
    ∧ (5 : ℚ) = ((category_answers c3wDB c3wResponses SurveyCategory.trivsel).map
          (fun a => (a : ℚ))).sum
        / ((category_answers c3wDB c3wResponses SurveyCategory.trivsel).length : ℚ) :=
  (scores_mean_of_means c3wDB c3wResponses).1 (SurveyCategory.trivsel, 5)
    (by with_unfolding_all decide)

/-! ### C2 and C10: the submission path -/

/-- Case analysis of `submit_responses`: every rejection leaves the store
untouched; an acceptance implies the set-based validations passed (empty
missing and extra sets) and appends exactly the rows of
`create_responses_bulk` to the response table. -/
lemma submit_responses_spec (settings : Settings) (now : Int) (token : Nat)
    (bulk : SurveyResponseBulkCreate) (db : DB) :
    ((submit_responses settings now token bulk db).1.isSuccess = false
       ∧ (submit_responses settings now token bulk db).2 = db)
    ∨ (∃ survey_session student,
        get_survey_session_by_token db token = some survey_session
        ∧ get_student db survey_session.student_id = some student
        ∧ (submit_responses settings now token bulk db).1.isSuccess = true
        ∧ ((get_questions_for_student db student.phase).map SurveyQuestion.id).filter
            (fun q => decide (q ∉ bulk.responses.map SurveyResponseCreate.question_id))
            = []
        ∧ (bulk.responses.map SurveyResponseCreate.question_id).filter
            (fun q => decide (q ∉ (get_questions_for_student db student.phase).map
                SurveyQuestion.id)) = []
        ∧ (submit_responses settings now token bulk db).2.responses
            = db.responses ++ create_responses_bulk survey_session.id bulk.responses) := by
  unfold submit_responses
  cases hfind : get_survey_session_by_token db token with
  | none => exact Or.inl ⟨rfl, rfl⟩
  | some sess =>
    dsimp only
    by_cases hexp : sess.token_expires_at < now
    · rw [if_pos hexp]
      exact Or.inl ⟨rfl, rfl⟩
    · rw [if_neg hexp]
      by_cases hcomp : sess.status = SessionStatus.completed
      · rw [if_pos hcomp]
        exact Or.inl ⟨rfl, rfl⟩
      · rw [if_neg hcomp]
        cases hst : get_student db sess.student_id with
        | none => exact Or.inl ⟨rfl, rfl⟩
        | some student =>
          dsimp only
          by_cases hmiss :
              ((get_questions_for_student db student.phase).map SurveyQuestion.id).filter
                (fun q =>
                  decide (q ∉ bulk.responses.map SurveyResponseCreate.question_id)) = []
          · rw [if_neg (by simpa using hmiss)]
            by_cases hextra :
                (bulk.responses.map SurveyResponseCreate.question_id).filter
                  (fun q => decide (q ∉ (get_questions_for_student db student.phase).map
                      SurveyQuestion.id)) = []
            · rw [if_neg (by simpa using hextra)]
              refine Or.inr ⟨sess, student, rfl, hst, ?_, hmiss, hextra, ?_⟩
              · cases htot : (save_scores_for_session settings
                    { db with responses :=
                        db.responses ++ create_responses_bulk sess.id bulk.responses }
                    sess (create_responses_bulk sess.id bulk.responses)).find?
                    Score.is_total with
                | none => simp [htot, SubmitOutcome.isSuccess]
                | some total => simp [htot, SubmitOutcome.isSuccess]
              · cases htot : (save_scores_for_session settings
                    { db with responses :=
                        db.responses ++ create_responses_bulk sess.id bulk.responses }
                    sess (create_responses_bulk sess.id bulk.responses)).find?
                    Score.is_total with
                | none => simp [htot, update_session_status]
                | some total => simp [htot, update_session_status]
            · rw [if_pos (by simpa using hextra)]
              exact Or.inl ⟨rfl, rfl⟩
          · rw [if_pos (by simpa using hmiss)]
            exact Or.inl ⟨rfl, rfl⟩

/-- C2 (amended): rejection of a submission (for any reason, including a
missing or an extra question id) leaves the store unchanged — no
`SurveyResponse` and no `Score` row is persisted; an accepted submission
covers every expected question at least once and references only expected
question ids, and persists one row per entry of the submitted list — so a
request that answers one expected question twice is accepted and persists
both rows rather than exactly one per expected question. -/
theorem submit_validation_set_based (settings : Settings) (now : Int)
    (token : Nat) (bulk : SurveyResponseBulkCreate) (db : DB) :
    ((submit_responses settings now token bulk db).1.isSuccess = false →
       (submit_responses settings now token bulk db).2 = db)
    ∧ (∀ survey_session student,
        get_survey_session_by_token db token = some survey_session →
        get_student db survey_session.student_id = some student →
        (submit_responses settings now token bulk db).1.isSuccess = true →
          (∀ q ∈ (get_questions_for_student db student.phase).map SurveyQuestion.id,
             q ∈ bulk.responses.map SurveyResponseCreate.question_id)
          ∧ (∀ r ∈ bulk.responses,
              r.question_id ∈ (get_questions_for_student db student.phase).map
                SurveyQuestion.id)
          ∧ (submit_responses settings now token bulk db).2.responses
              = db.responses ++ create_responses_bulk survey_session.id
                  bulk.responses) := by
  rcases submit_responses_spec settings now token bulk db with
    ⟨hfail, hdb⟩ | ⟨sess, student, hfind, hst, hsucc, hmiss, hextra, hresp⟩
  · refine ⟨fun _ => hdb, fun s st h1 h2 h3 => absurd h3 ?_⟩
    rw [hfail]
    exact Bool.false_ne_true
  · constructor
    · intro hfail
      rw [hsucc] at hfail
      cases hfail
    · intro s st h1 h2 _
      rw [hfind] at h1
      cases h1
      rw [hst] at h2
      cases h2
      refine ⟨?_, ?_, hresp⟩
      · intro q hq
        by_contra hq2
        have hmem : q ∈ ((get_questions_for_student db student.phase).map
            SurveyQuestion.id).filter
            (fun q => decide (q ∉ bulk.responses.map SurveyResponseCreate.question_id)) :=
          List.mem_filter.2 ⟨hq, by simpa using hq2⟩
        rw [hmiss] at hmem
        exact absurd hmem (List.not_mem_nil q)
      · intro r hr
        by_contra hr2
        have hmem : r.question_id ∈
            (bulk.responses.map SurveyResponseCreate.question_id).filter
            (fun q => decide (q ∉ (get_questions_for_student db student.phase).map
                SurveyQuestion.id)) :=
          List.mem_filter.2 ⟨List.mem_map_of_mem _ hr, by simpa using hr2⟩
        rw [hextra] at hmem
        exact absurd hmem (List.not_mem_nil r.question_id)

set_option maxRecDepth 8000 in
/-- Witness for `submit_validation_set_based`: a well-formed submission to
`c2DB` persists exactly its submitted rows, and a submission with an
unknown token changes nothing. -/
theorem submit_validation_set_based_witness :
    ((submit_responses defaultSettings 10 1
        { responses := [{ question_id := 7, answer := 4 }],
          custom_responses := none } c2DB).2.responses
      = c2DB.responses ++ create_responses_bulk 0
          [{ question_id := 7, answer := 4 }])
    ∧ (submit_responses defaultSettings 10 99
        { responses := [], custom_responses := none } c2DB).2 = c2DB := by
  constructor
  · exact ((submit_validation_set_based defaultSettings 10 1
      { responses := [{ question_id := 7, answer := 4 }],
        custom_responses := none } c2DB).2 c2Session
      { id := 0, phase := StudentPhase.hovedforloeb, consent_status := true }
      (by with_unfolding_all decide) (by with_unfolding_all decide)
      (by with_unfolding_all decide)).2.2
  · exact (submit_validation_set_based defaultSettings 10 99
      { responses := [], custom_responses := none } c2DB).1
      (by with_unfolding_all decide)

/-- C10: the `custom_responses` field of a bulk submission is silently
discarded: the outcome and resulting store are identical to those of the
same submission with no custom responses, and every response row persisted
by a submission has no `custom_question_index` set, while the request still
reports success whenever it is otherwise valid. -/
theorem custom_responses_discarded (settings : Settings) (now : Int)
    (token : Nat) (rs : List SurveyResponseCreate)
    (cr : Option (List CustomResponseCreate)) (db : DB) :
    submit_responses settings now token
        { responses := rs, custom_responses := cr } db
      = submit_responses settings now token
          { responses := rs, custom_responses := none } db
    ∧ (∀ r ∈ (submit_responses settings now token
          { responses := rs, custom_responses := cr } db).2.responses,
        r ∈ db.responses ∨ r.custom_question_index = none) := by
  constructor
  · rfl
  · intro r hr
    rcases submit_responses_spec settings now token
        { responses := rs, custom_responses := cr } db with
      ⟨_, hdb⟩ | ⟨sess, student, _, _, _, _, _, hresp⟩
    · rw [hdb] at hr
      exact Or.inl hr
    · rw [hresp] at hr
      rcases List.mem_append.1 hr with h | h
      · exact Or.inl h
      · rcases List.mem_map.1 h with ⟨x, _, rfl⟩
        exact Or.inr rfl

/-- Witness for `custom_responses_discarded`: a submission carrying a
custom-question answer produces the same result as one without, and its
persisted row has no custom index. -/
theorem custom_responses_discarded_witness :
    (submit_responses defaultSettings 10 1
        { responses := [{ question_id := 7, answer := 4 }],
          custom_responses := some [{ custom_question_index := 0, answer := 5 }] }
        c2DB
      = submit_responses defaultSettings 10 1
          { responses := [{ question_id := 7, answer := 4 }],
            custom_responses := none } c2DB)
    ∧ (({ session_id := 0, question_id := some 7, custom_question_index := none,
          answer := 4 } : SurveyResponse) ∈ c2DB.responses
        ∨ ({ session_id := 0, question_id := some 7, custom_question_index := none,
             answer := 4 } : SurveyResponse).custom_question_index = none) := by
  constructor
  · exact (custom_responses_discarded defaultSettings 10 1
      [{ question_id := 7, answer := 4 }]
      (some [{ custom_question_index := 0, answer := 5 }]) c2DB).1
  · exact (custom_responses_discarded defaultSettings 10 1
      [{ question_id := 7, answer := 4 }]
      (some [{ custom_question_index := 0, answer := 5 }]) c2DB).2
      { session_id := 0, question_id := some 7, custom_question_index := none,
        answer := 4 }
      (by with_unfolding_all decide)

/-! ### C5 and C6: the expiry sweep -/

/-- The notification rows the sweep creates for one selected session:
the non-response fan-out when the student exists, nothing otherwise. -/
def sweep_notifications_for (db : DB) (sess : SurveySession) : List Notification :=
  match get_student db sess.student_id with
  | some student => process_non_response db student
  | none => []

/-- `process_non_response` reads only the assignment table, which a session
status update leaves untouched. -/
lemma update_process_non_response (db : DB) (i : Nat) (st : SessionStatus)
    (now : Int) (student : Student) :
    process_non_response (update_session_status db i st now) student
      = process_non_response db student := rfl

/-- The per-session sweep fan-out reads only students and assignments, which
a session status update leaves untouched. -/
lemma update_sweep_flatMap (db : DB) (i : Nat) (st : SessionStatus) (now : Int)
    (l : List SurveySession) :
    l.flatMap (sweep_notifications_for (update_session_status db i st now))
      = l.flatMap (sweep_notifications_for db) := rfl

/-- The per-session sweep fan-out is likewise invariant under replacing the
session and notification tables. -/
lemma flatMap_sweep_replace (db : DB) (sessions : List SurveySession)
    (notifs : List Notification) (l : List SurveySession) :
    l.flatMap (sweep_notifications_for
        { db with sessions := sessions, notifications := notifs })
      = l.flatMap (sweep_notifications_for db) := rfl

/-- Projections of a session status update. -/
lemma update_students (db : DB) (i : Nat) (st : SessionStatus) (now : Int) :
    (update_session_status db i st now).students = db.students := rfl

/-- Projections of a session status update. -/
lemma update_questions (db : DB) (i : Nat) (st : SessionStatus) (now : Int) :
    (update_session_status db i st now).questions = db.questions := rfl

/-- Projections of a session status update. -/
lemma update_responses (db : DB) (i : Nat) (st : SessionStatus) (now : Int) :
    (update_session_status db i st now).responses = db.responses := rfl

/-- Projections of a session status update. -/
lemma update_scores (db : DB) (i : Nat) (st : SessionStatus) (now : Int) :
    (update_session_status db i st now).scores = db.scores := rfl

/-- Projections of a session status update. -/
lemma update_assignments (db : DB) (i : Nat) (st : SessionStatus) (now : Int) :
    (update_session_status db i st now).assignments = db.assignments := rfl

/-- Projections of a session status update. -/
lemma update_notifications (db : DB) (i : Nat) (st : SessionStatus) (now : Int) :
    (update_session_status db i st now).notifications = db.notifications := rfl

/-- A `non_response` status update rewrites the session table pointwise and
leaves `completed_at` untouched. -/
lemma update_sessions_non_response (db : DB) (i : Nat) (now : Int) :
    (update_session_status db i SessionStatus.non_response now).sessions
      = db.sessions.map (fun s =>
          if s.id = i then { s with status := SessionStatus.non_response }
          else s) := by
  unfold update_session_status
  apply List.map_congr_left
  intro s _
  by_cases h : s.id = i
  · simp [h]
  · simp [h]

/-- Marking by one id and then by a list of ids equals marking by the
consed id list. -/
lemma mark_after_mark (l : List SurveySession) (i : Nat) (ids : List Nat) :
    ((l.map (fun s =>
        if s.id = i then { s with status := SessionStatus.non_response }
        else s)).map (fun s =>
        if s.id ∈ ids then { s with status := SessionStatus.non_response }
        else s))
      = l.map (fun s =>
          if s.id ∈ i :: ids then { s with status := SessionStatus.non_response }
          else s) := by
  rw [List.map_map]
  apply List.map_congr_left
  intro s _
  simp only [Function.comp_apply]
  by_cases h1 : s.id = i
  · simp [h1]
  · simp [h1]

/-- Closed form of the sweep loop: it transitions exactly the selected
sessions (by id) to `non_response`, appends the per-session fan-out
computed over the original store, and counts the processed sessions. -/
lemma processExpiredLoop_spec (now : Int) (todo : List SurveySession) :
    ∀ (n : Nat) (db : DB),
      processExpiredLoop now todo n db =
        (n + todo.length,
         { db with
            sessions := db.sessions.map (fun s =>
              if s.id ∈ todo.map SurveySession.id
              then { s with status := SessionStatus.non_response } else s),
            notifications := db.notifications
              ++ todo.flatMap (sweep_notifications_for db) }) := by
  induction todo with
  | nil =>
    intro n db
    simp [processExpiredLoop]
  | cons sess rest ih =>
    intro n db
    simp only [processExpiredLoop]
    rw [show get_student (update_session_status db sess.id
        SessionStatus.non_response now) sess.student_id
      = get_student db sess.student_id from rfl]
    cases hg : get_student db sess.student_id with
    | none =>
      rw [ih]
      simp only [update_students, update_questions, update_responses,
        update_scores, update_assignments, update_notifications,
        update_sessions_non_response, update_sweep_flatMap,
        List.map_cons, List.flatMap_cons, List.length_cons, mark_after_mark]
      rw [show sweep_notifications_for db sess = [] from by
            unfold sweep_notifications_for; rw [hg],
          List.nil_append]
      exact Prod.ext (by omega) rfl
    | some student =>
      rw [ih]
      simp only [update_students, update_questions, update_responses,
        update_scores, update_assignments, update_notifications,
        update_sessions_non_response, update_process_non_response,
        flatMap_sweep_replace, List.map_cons, List.flatMap_cons,
        List.length_cons, mark_after_mark]
      rw [show sweep_notifications_for db sess = process_non_response db student
            from by unfold sweep_notifications_for; rw [hg],
          List.append_assoc]
      exact Prod.ext (by omega) rfl

/-- The sweep characterized over the original store, under distinct session
ids: a session transitions to `non_response` exactly when it is selected by
`get_expired_sessions`. -/
lemma process_expired_sessions_spec (now : Int) (db : DB)
    (hnd : (db.sessions.map SurveySession.id).Nodup) :
    process_expired_sessions now db =
      ((get_expired_sessions now db).length,
       { db with
          sessions := db.sessions.map (fun s =>
            if (s.status = SessionStatus.pending
                  ∨ s.status = SessionStatus.in_progress)
                ∧ s.token_expires_at ≤ now
            then { s with status := SessionStatus.non_response } else s),
          notifications := db.notifications
            ++ (get_expired_sessions now db).flatMap
                (sweep_notifications_for db) }) := by
  unfold process_expired_sessions
  rw [processExpiredLoop_spec]
  refine Prod.ext (by simp) ?_
  have hsess : db.sessions.map (fun s =>
        if s.id ∈ (get_expired_sessions now db).map SurveySession.id
        then { s with status := SessionStatus.non_response } else s)
      = db.sessions.map (fun s =>
          if (s.status = SessionStatus.pending
                ∨ s.status = SessionStatus.in_progress)
              ∧ s.token_expires_at ≤ now
          then { s with status := SessionStatus.non_response } else s) := by
    apply List.map_congr_left
    intro s hs
    have hmem : s.id ∈ (get_expired_sessions now db).map SurveySession.id ↔
        ((s.status = SessionStatus.pending ∨ s.status = SessionStatus.in_progress)
          ∧ s.token_expires_at ≤ now) := by
      constructor
      · intro h
        rcases List.mem_map.1 h with ⟨s2, hs2, heq⟩
        have hs3 := List.mem_filter.1 hs2
        have hss : s2 = s :=
          List.inj_on_of_nodup_map hnd hs3.1 hs heq
        subst hss
        have hb := hs3.2
        simp only [Bool.and_eq_true, Bool.or_eq_true, beq_iff_eq,
          decide_eq_true_eq] at hb
        exact hb
      · intro h
        refine List.mem_map.2 ⟨s, List.mem_filter.2 ⟨hs, ?_⟩, rfl⟩
        simp only [Bool.and_eq_true, Bool.or_eq_true, beq_iff_eq,
          decide_eq_true_eq]
        exact h
    by_cases hc : (s.status = SessionStatus.pending
        ∨ s.status = SessionStatus.in_progress) ∧ s.token_expires_at ≤ now
    · rw [if_pos (hmem.2 hc), if_pos hc]
    · rw [if_neg (fun hmm => hc (hmem.1 hmm)), if_neg hc]
  rw [hsess]

/-- C6: the sweep transitions every session whose expiry has passed and
whose status is pending or in_progress to `non_response` (leaving all other
sessions untouched), appends exactly the fan-out notifications — for each
selected session whose student exists, one non-response notification per
assignment of that student — and re-invoking the sweep on the resulting
store processes nothing and changes nothing. -/
theorem sweep_transitions_and_notifies (now : Int) (db : DB)
    (hnd : (db.sessions.map SurveySession.id).Nodup) :
    ((process_expired_sessions now db).1 = (get_expired_sessions now db).length)
    ∧ ((process_expired_sessions now db).2.sessions = db.sessions.map (fun s =>
          if (s.status = SessionStatus.pending
                ∨ s.status = SessionStatus.in_progress)
              ∧ s.token_expires_at ≤ now
          then { s with status := SessionStatus.non_response } else s))
    ∧ ((process_expired_sessions now db).2.notifications = db.notifications
          ++ (get_expired_sessions now db).flatMap (sweep_notifications_for db))
    ∧ (∀ sess ∈ get_expired_sessions now db, ∀ student,
          get_student db sess.student_id = some student →
          sweep_notifications_for db sess
            = (get_student_assignments db student.id).map (fun a =>
                { student_id := some student.id, user_id := a.user_id,
                  type := NotificationType.non_response }))
    ∧ process_expired_sessions now (process_expired_sessions now db).2
        = (0, (process_expired_sessions now db).2) := by
  have hspec := process_expired_sessions_spec now db hnd
  refine ⟨by rw [hspec], by rw [hspec], by rw [hspec], ?_, ?_⟩
  · intro sess _ student hg
    unfold sweep_notifications_for
    rw [hg]
    show process_non_response db student = _
    unfold process_non_response
    dsimp only
    by_cases h : get_student_assignments db student.id = []
    · rw [if_pos h, h]
      rfl
    · rw [if_neg h]
  · have hempty :
        get_expired_sessions now (process_expired_sessions now db).2 = [] := by
      rw [hspec]
      unfold get_expired_sessions
      rw [List.filter_eq_nil_iff]
      intro x hx
      rcases List.mem_map.1 hx with ⟨s, _, rfl⟩
      by_cases hc : (s.status = SessionStatus.pending
          ∨ s.status = SessionStatus.in_progress) ∧ s.token_expires_at ≤ now
      · rw [if_pos hc]
        simp
      · rw [if_neg hc]
        simp only [Bool.and_eq_true, Bool.or_eq_true, beq_iff_eq,
          decide_eq_true_eq]
        exact hc
    show processExpiredLoop now
        (get_expired_sessions now (process_expired_sessions now db).2) 0
        (process_expired_sessions now db).2
      = (0, (process_expired_sessions now db).2)
    rw [hempty]
    rfl

/-- A pending past-expiry session for the C6 witness. -/
def c6Session : SurveySession :=
  { id := 0, student_id := 0, token := 3, token_expires_at := 5,
    status := SessionStatus.pending, completed_at := none,
    week_number := 1, year := 2025, reminder_count := 0 }

/-- A store with `c6Session`, its student and one assigned staff member. -/
def c6DB : DB :=
  { students := [{ id := 0, phase := StudentPhase.hovedforloeb,
                   consent_status := true }],
    questions := [], sessions := [c6Session], responses := [], scores := [],
    assignments := [{ student_id := 0, user_id := 42 }], notifications := [] }

/-- Witness for `sweep_transitions_and_notifies`: the sweep over `c6DB`
creates exactly one non-response notification for the single assigned
staff member. -/
theorem sweep_transitions_and_notifies_witness :
    (process_expired_sessions 10 c6DB).2.notifications
      = [{ student_id := some 0, user_id := 42,
           type := NotificationType.non_response }] := by
  rw [(sweep_transitions_and_notifies 10 c6DB (by decide)).2.2.1]
  decide

/-- C5 (amended): the sweep does not select sessions already in status
`expired`: such a session is not in `get_expired_sessions`, remains in the
session table unchanged (still `expired`, not `non_response`), and the
notifications appended by the sweep come only from the selected
pending/in_progress sessions. -/
theorem sweep_leaves_expired_status_sessions (now : Int) (db : DB)
    (hnd : (db.sessions.map SurveySession.id).Nodup) :
    ∀ sess ∈ db.sessions, sess.status = SessionStatus.expired →
      sess ∉ get_expired_sessions now db
      ∧ sess ∈ (process_expired_sessions now db).2.sessions
      ∧ (process_expired_sessions now db).2.notifications
          = db.notifications
            ++ (get_expired_sessions now db).flatMap
                (sweep_notifications_for db) := by
  intro sess hmem hexp
  have hspec := process_expired_sessions_spec now db hnd
  refine ⟨?_, ?_, by rw [hspec]⟩
  · intro hin
    have hb := (List.mem_filter.1 hin).2
    simp only [Bool.and_eq_true, Bool.or_eq_true, beq_iff_eq,
      decide_eq_true_eq] at hb
    rcases hb.1 with h | h <;> rw [hexp] at h <;> exact absurd h (by decide)
  · rw [hspec]
    have hfix : (if (sess.status = SessionStatus.pending
          ∨ sess.status = SessionStatus.in_progress)
          ∧ sess.token_expires_at ≤ now
        then { sess with status := SessionStatus.non_response } else sess)
        = sess := by
      rw [if_neg]
      intro hc
      rcases hc.1 with h | h <;> rw [hexp] at h <;> exact absurd h (by decide)
    exact List.mem_map.2 ⟨sess, hmem, hfix⟩

/-- Witness for `sweep_leaves_expired_status_sessions` on the concrete
store `c5DB`. -/
theorem sweep_leaves_expired_status_sessions_witness :
    c5Session ∉ get_expired_sessions 10 c5DB
    ∧ c5Session ∈ (process_expired_sessions 10 c5DB).2.sessions :=
  ⟨(sweep_leaves_expired_status_sessions 10 c5DB (by decide) c5Session
      (by decide) (by decide)).1,
   (sweep_leaves_expired_status_sessions 10 c5DB (by decide) c5Session
      (by decide) (by decide)).2.1⟩

/-! ### C7: alert fan-out after a completed submission -/

/-- Filtering a mapped list whose images all satisfy the predicate keeps
every element. -/
lemma filter_map_of_all {α β : Type} (p : β → Bool) (f : α → β) (l : List α)
    (h : ∀ a, p (f a) = true) : (l.map f).filter p = l.map f := by
  induction l with
  | nil => rfl
  | cons x xs ih => simp [List.filter_cons, h, ih]

/-- Filtering a mapped list whose images all fail the predicate drops
every element. -/
lemma filter_map_of_none {α β : Type} (p : β → Bool) (f : α → β) (l : List α)
    (h : ∀ a, p (f a) = false) : (l.map f).filter p = [] := by
  induction l with
  | nil => rfl
  | cons x xs ih => simp [List.filter_cons, h, ih]

/-- C7: for a completed submission, `check_for_alerts` creates zero
notifications when the student has no assignments (returning without
error); with a nonempty assignment set it creates exactly one critical-score
notification per assignment record when some computed score is red (and
none otherwise), and — independently — exactly one score-drop notification
per assignment record when the drop detector fires against the previous
total score; both sets can be produced by a single call. -/
theorem check_for_alerts_fanout (db : DB) (survey_session : SurveySession)
    (scores : List Score) (student : Student) :
    (get_student_assignments db student.id = [] →
       check_for_alerts db survey_session scores student = [])
    ∧ (get_student_assignments db student.id ≠ [] →
        ((scores.filter (fun s => s.color == ScoreColor.red) ≠ [] →
           (check_for_alerts db survey_session scores student).filter
               (fun nf => nf.type == NotificationType.critical_score)
             = (get_student_assignments db student.id).map (fun a =>
                 { student_id := some student.id, user_id := a.user_id,
                   type := NotificationType.critical_score }))
         ∧ (scores.filter (fun s => s.color == ScoreColor.red) = [] →
             (check_for_alerts db survey_session scores student).filter
               (fun nf => nf.type == NotificationType.critical_score) = [])
         ∧ (∀ total, scores.find? Score.is_total = some total →
             detect_score_drop total.score_value
               (get_previous_total_score db student.id (some survey_session.id)) 1
               = true →
             (check_for_alerts db survey_session scores student).filter
               (fun nf => nf.type == NotificationType.score_drop)
             = (get_student_assignments db student.id).map (fun a =>
                 { student_id := some student.id, user_id := a.user_id,
                   type := NotificationType.score_drop })))) := by
  constructor
  · intro ha
    unfold check_for_alerts
    dsimp only
    rw [if_pos ha]
  · intro hne
    refine ⟨?_, ?_, ?_⟩
    · intro hred
      unfold check_for_alerts
      dsimp only
      rw [if_neg hne, if_neg hred]
      cases hfind : scores.find? Score.is_total with
      | none =>
        dsimp only
        rw [List.append_nil, filter_map_of_all _ _ _ (fun a => rfl)]
      | some total =>
        dsimp only
        by_cases hdet : detect_score_drop total.score_value
            (get_previous_total_score db student.id (some survey_session.id)) 1
            = true
        · rw [if_pos hdet, List.filter_append,
            filter_map_of_all _ _ _ (fun a => rfl),
            filter_map_of_none _ _ _ (fun a => rfl), List.append_nil]
        · rw [if_neg hdet, List.append_nil,
            filter_map_of_all _ _ _ (fun a => rfl)]
    · intro hred
      unfold check_for_alerts
      dsimp only
      rw [if_neg hne, if_pos hred]
      cases hfind : scores.find? Score.is_total with
      | none =>
        dsimp only
        rfl
      | some total =>
        dsimp only
        by_cases hdet : detect_score_drop total.score_value
            (get_previous_total_score db student.id (some survey_session.id)) 1
            = true
        · rw [if_pos hdet, List.nil_append,
            filter_map_of_none _ _ _ (fun a => rfl)]
        · rw [if_neg hdet]
          rfl
    · intro total hfind hdet
      unfold check_for_alerts
      dsimp only
      rw [if_neg hne, hfind]
      dsimp only
      rw [if_pos hdet, List.filter_append,
        filter_map_of_all _ _ _ (fun a => rfl)]
      by_cases hred : scores.filter (fun s => s.color == ScoreColor.red) = []
      · rw [if_pos hred]
        rfl
      · rw [if_neg hred, filter_map_of_none _ _ _ (fun a => rfl),
          List.nil_append]

/-- The student of the C7 witness scenario. -/
def c7Student : Student :=
  { id := 0, phase := StudentPhase.hovedforloeb, consent_status := true }

/-- The just-completed session of the C7 witness scenario. -/
def c7Session : SurveySession :=
  { id := 0, student_id := 0, token := 4, token_expires_at := 100,
    status := SessionStatus.completed, completed_at := some 9,
    week_number := 1, year := 2025, reminder_count := 0 }

/-- A store with three assigned mentors and a prior total score of 4.0 from
an earlier session. -/
def c7DB : DB :=
  { students := [c7Student], questions := [], sessions := [c7Session],
    responses := [],
    scores := [{ student_id := 0, session_id := 99, category := none,
                 score_value := 4, color := ScoreColor.green, is_total := true }],
    assignments := [{ student_id := 0, user_id := 1 },
                    { student_id := 0, user_id := 2 },
                    { student_id := 0, user_id := 3 }],
    notifications := [] }

/-- The red total Score row (2.5) of the C7 witness. -/
def c7Total : Score :=
  { student_id := 0, session_id := 0, category := none, score_value := 5/2,
    color := ScoreColor.red, is_total := true }

/-- The freshly computed scores of the C7 witness: a red total of 2.5. -/
def c7Scores : List Score := [c7Total]

/-- Witness for `check_for_alerts_fanout`, matching the spec scenario: three
mentors, red total 2.5, prior total 4.0 — three critical-score and three
score-drop notifications, one per mentor. -/
theorem check_for_alerts_fanout_witness :
    ((check_for_alerts c7DB c7Session c7Scores c7Student).filter
        (fun nf => nf.type == NotificationType.critical_score)
      = [{ student_id := some 0, user_id := 1,
           type := NotificationType.critical_score },
         { student_id := some 0, user_id := 2,
           type := NotificationType.critical_score },
         { student_id := some 0, user_id := 3,
           type := NotificationType.critical_score }])
    ∧ ((check_for_alerts c7DB c7Session c7Scores c7Student).filter
        (fun nf => nf.type == NotificationType.score_drop)
      = [{ student_id := some 0, user_id := 1,
           type := NotificationType.score_drop },
         { student_id := some 0, user_id := 2,
           type := NotificationType.score_drop },
         { student_id := some 0, user_id := 3,
           type := NotificationType.score_drop }]) := by
  have h := (check_for_alerts_fanout c7DB c7Session c7Scores c7Student).2
    (by with_unfolding_all decide)
  constructor
  · rw [h.1 (by with_unfolding_all decide)]
    with_unfolding_all decide
  · rw [h.2.2 c7Total (by with_unfolding_all decide)
      (by with_unfolding_all decide)]
    with_unfolding_all decide

/-! ### C4 (amended): the stored color comes from the unrounded value -/

/-- C4 (amended): every persisted `Score` row stores the value rounded to
2 decimals, while its color is the threshold classification of the
pre-rounding computed value; the stored color can therefore disagree with
the classification of the stored (rounded) value exactly when rounding
crosses a threshold. -/
theorem color_from_unrounded_value (settings : Settings) (db : DB)
    (survey_session : SurveySession) (responses : List SurveyResponse) :
    ∀ s ∈ save_scores_for_session settings db survey_session responses,
      ∃ v : ℚ, s.score_value = pythonRound2 v
        ∧ s.color = determine_color settings v := by
  intro s hs
  simp only [save_scores_for_session] at hs
  rcases List.mem_append.1 hs with h | h
  · rcases List.mem_map.1 h with ⟨cs, _, rfl⟩
    exact ⟨cs.2, rfl, rfl⟩
  · rcases List.mem_singleton.1 h with rfl
    exact ⟨(calculate_all_scores db responses).2, rfl, rfl⟩

/-- A single response answering question 1 of `c4DB` with 4. -/
def c4wResponses : List SurveyResponse :=
  [{ session_id := 0, question_id := some 1, custom_question_index := none,
     answer := 4 }]

/-- The trivsel Score row produced for `c4wResponses`. -/
def c4wScore : Score :=
  { student_id := 0, session_id := 0, category := some SurveyCategory.trivsel,
    score_value := 4, color := ScoreColor.green, is_total := false }

/-- Witness for `color_from_unrounded_value` at a concrete persisted row. -/
theorem color_from_unrounded_value_witness :
    ∃ v : ℚ, c4wScore.score_value = pythonRound2 v
      ∧ c4wScore.color = determine_color defaultSettings v :=
  color_from_unrounded_value defaultSettings c4DB c4Session c4wResponses
    c4wScore (by with_unfolding_all decide)

end Trivsel
